import Mathlib

/-!
Verification of the MCPeek protocol/transport core against its specification.

The Python sources under `src/mcpeek/` are shallowly embedded: JSON values
become an inductive type, Python dicts become association lists preserving
insertion order, raised exceptions become an `Except` error type, and the
float confidence scores of the version detector become exact rationals.
-/

namespace MCPeek

/-- JSON values, as produced by `json.loads` and carried in JSON-RPC messages. -/
inductive JValue where
  | null
  | bool (b : Bool)
  | num (n : Int)
  | str (s : String)
  | arr (xs : List JValue)
  | obj (fields : List (String × JValue))

/-- A Python `Dict[str, Any]` holding JSON data: an association list in
insertion order with (assumed) distinct keys. -/
abbrev Dict := List (String × JValue)

/-- `k in d` for a Python dict. -/
def Dict.hasKey (d : Dict) (k : String) : Bool :=
  d.any (fun p => p.1 == k)

/-- `d.get(k)` for a Python dict: the first binding of `k`, if any. -/
def Dict.get? (d : Dict) (k : String) : Option JValue :=
  (d.find? (fun p => p.1 == k)).map Prod.snd

/-- `d.get(k, default)` for a Python dict. -/
def Dict.getD (d : Dict) (k : String) (v : JValue) : JValue :=
  (d.get? k).getD v

/-- `not d` is true for an empty Python dict (falsy). -/
def Dict.isEmpty (d : Dict) : Bool :=
  List.isEmpty d

/-- Tests whether an optional JSON value is the string `"2.0"` (the comparison
`message["jsonrpc"] != "2.0"` of the source; a non-string value compares
unequal). -/
def isVersionTag (v : Option JValue) : Bool :=
  match v with
  | some (.str s) => s == "2.0"
  | _ => false

/-- The exception taxonomy of `utils/exceptions.py`, plus the Python built-in
exceptions the sources raise (`RuntimeError` in `transports/base.py`,
`AttributeError` from attribute access on non-dict values). -/
inductive PyErr where
  | connectionError (msg : String)
  | protocolError (msg : String)
  | validationError (msg : String)
  | timeoutError (msg : String)
  | runtimeError (msg : String)
  | attrError (msg : String)
  deriving DecidableEq, Repr

/-- `str(e)`: the message text an exception carries. -/
def PyErr.text : PyErr → String
  | .connectionError m => m
  | .protocolError m => m
  | .validationError m => m
  | .timeoutError m => m
  | .runtimeError m => m
  | .attrError m => m

/-- Whether an exception is a `ProtocolError`. -/
def PyErr.isProtocolError : PyErr → Bool
  | .protocolError _ => true
  | _ => false

/-- `helpers.validate_json_rpc_message`: validates JSON-RPC message structure,
raising `ValidationError` on a malformed shape. -/
def validate_json_rpc_message (message : Dict) : Except PyErr Unit :=
  if !(message.hasKey "jsonrpc") then
    .error (.validationError "Missing jsonrpc field")
  else if !(isVersionTag (message.get? "jsonrpc")) then
    .error (.validationError "Invalid JSON-RPC version, must be 2.0")
  else if message.hasKey "method" then
    .ok ()
  else if message.hasKey "result" || message.hasKey "error" then
    if !(message.hasKey "id") then
      .error (.validationError "Response message missing id field")
    else
      .ok ()
  else
    .error (.validationError "Message must have either method or result/error")

/-- The validation the transports apply to received data, which may be any
JSON value: `validate_json_rpc_message` first rejects non-dict input. -/
def validate_received (v : JValue) : Except PyErr Unit :=
  match v with
  | .obj d => validate_json_rpc_message d
  | _ => .error (.validationError "Message must be a dictionary")

/-- `helpers.create_request_id`, as a function of the current clock reading in
whole milliseconds (`int(time.time() * 1000)`). -/
def create_request_id (now_ms : Nat) : String :=
  "mcpeek-" ++ toString now_ms

/-! ### Version detector (`version_detection.py`) -/

/-- `capability.split(".")` of the source: split a string at every dot. -/
def splitDotAux : List Char → List Char → List String
  | [], acc => [String.mk acc.reverse]
  | c :: cs, acc =>
      if c = '.' then String.mk acc.reverse :: splitDotAux cs []
      else splitDotAux cs (c :: acc)

/-- Dotted-path split of a capability name. -/
def splitDot (s : String) : List String :=
  splitDotAux s.data []

/-- Python truthiness of a JSON value (`elif capabilities:`). -/
def pyTruthy : JValue → Bool
  | .null => false
  | .bool b => b
  | .num n => !(n == 0)
  | .str s => !(s == "")
  | .arr xs => !xs.isEmpty
  | .obj fs => !fs.isEmpty

/-- Python `str()` rendering of a JSON value as used in f-strings. Scalar
cases follow CPython; composite values are abbreviated since no theorem
depends on their rendering. -/
def pyStr : JValue → String
  | .null => "None"
  | .bool true => "True"
  | .bool false => "False"
  | .num n => toString n
  | .str s => s
  | .arr _ => "[...]"
  | .obj _ => "\x7b...\x7d"

/-- One entry of a version map: `{"spec_version": ..., "features": [...]}`. -/
structure VersionEntry where
  spec_version : String
  features : List String

/-- `MCPVersionDetector.DEFAULT_VERSION_MAP`, in source order. -/
def DEFAULT_VERSION_MAP : List (String × VersionEntry) :=
  [("2024-11-05",
    { spec_version := "1.0.0",
      features := ["basic_tools", "basic_resources", "basic_prompts",
                   "json_rpc_2.0", "capability_negotiation", "initialization_handshake"] }),
   ("2024-10-07",
    { spec_version := "0.9.0",
      features := ["basic_tools", "basic_resources", "json_rpc_2.0"] }),
   ("2024-06-25",
    { spec_version := "0.8.0",
      features := ["basic_tools", "json_rpc_2.0"] })]

/-- One entry of `FEATURE_PATTERNS`: required methods and capabilities. -/
structure FeaturePattern where
  methods : List String
  capabilities : List String

/-- `MCPVersionDetector.FEATURE_PATTERNS`, in source order. -/
def FEATURE_PATTERNS : List (String × FeaturePattern) :=
  [("basic_tools",
    { methods := ["tools/list", "tools/call"], capabilities := ["tools"] }),
   ("basic_resources",
    { methods := ["resources/list", "resources/read"], capabilities := ["resources"] }),
   ("basic_prompts",
    { methods := ["prompts/list", "prompts/get"], capabilities := ["prompts"] }),
   ("advanced_resources",
    { methods := ["resources/subscribe", "resources/unsubscribe"],
      capabilities := ["resources.subscribe", "resources.listChanged"] }),
   ("sampling_support", { methods := [], capabilities := ["sampling"] }),
   ("experimental_features", { methods := [], capabilities := ["experimental"] }),
   ("roots_support", { methods := [], capabilities := ["roots", "roots.listChanged"] })]

/-- The walk of `_check_capabilities` along a dotted path: each component must
be a key of the current (dict) value. -/
def checkPath : JValue → List String → Bool
  | _, [] => true
  | .obj fields, p :: rest =>
      match Dict.get? fields p with
      | some v => checkPath v rest
      | none => false
  | _, _ :: _ => false

/-- `MCPVersionDetector._check_capabilities`: every required capability is
present, dotted names being nested lookups. Non-dict capability values fail
the `isinstance` guard. -/
def check_capabilities (capabilities : JValue) (required : List String) : Bool :=
  match capabilities with
  | .obj _ =>
      required.all (fun cap =>
        if (String.data cap).contains '.' then checkPath capabilities (splitDot cap)
        else checkPath capabilities [cap])
  | _ => false

/-- `MCPVersionDetector._detect_features`: collect the feature names whose
method/capability requirements are met, then unconditionally include
`json_rpc_2.0`. -/
def detect_features (capabilities : JValue) (methodsOpt : Option (List String)) : List String :=
  let methods := methodsOpt.getD []
  let detected := FEATURE_PATTERNS.foldl
    (fun acc p =>
      let required_methods := p.2.methods
      let methods_satisfied :=
        if !required_methods.isEmpty && !methods.isEmpty then
          required_methods.all (fun m => methods.contains m)
        else if required_methods.isEmpty then true
        else false
      let required_capabilities := p.2.capabilities
      let capabilities_satisfied := check_capabilities capabilities required_capabilities
      let feature_supported :=
        if !required_methods.isEmpty && !required_capabilities.isEmpty then
          methods_satisfied && capabilities_satisfied
        else if !required_methods.isEmpty then methods_satisfied
        else if !required_capabilities.isEmpty then capabilities_satisfied
        else true
      if feature_supported then acc ++ [p.1] else acc)
    []
  if detected.contains "json_rpc_2.0" then detected else detected ++ ["json_rpc_2.0"]

/-- `len(set(xs))` for a list of feature names. -/
def setCard (xs : List String) : Nat :=
  xs.dedup.length

/-- `len(set(xs) & set(ys))`. -/
def interCard (xs ys : List String) : Nat :=
  (xs.dedup.filter (fun x => ys.contains x)).length

/-- `len(set(xs) - set(ys))`. -/
def diffCard (xs ys : List String) : Nat :=
  (xs.dedup.filter (fun x => !ys.contains x)).length

/-- `protocol_version in self.version_map` followed by indexing: a lookup that
only a string key can satisfy. -/
def lookupEntry (vmap : List (String × VersionEntry)) (pv : JValue) : Option VersionEntry :=
  match pv with
  | .str s => ((vmap.find? (fun p => p.1 == s)).map Prod.snd)
  | _ => none

/-- `protocol_version == "unknown"` (false for any non-string value). -/
def isUnknownStr (pv : JValue) : Bool :=
  match pv with
  | .str s => s == "unknown"
  | _ => false

/-- `MCPVersionDetector._infer_version_from_features`: score every table entry
by overlap ratio minus a penalty per missing feature plus a bonus per extra
feature, keep the best strict improvement, cap the confidence at 0.7. -/
def infer_version_from_features (vmap : List (String × VersionEntry))
    (features : List String) : String × ℚ :=
  let best := vmap.foldl
    (fun (best : String × ℚ) entry =>
      let expected := entry.2.features
      if (setCard expected) == 0 then best
      else
        let overlap : ℚ := interCard expected features
        let missing : ℚ := diffCard expected features
        let extra : ℚ := diffCard features expected
        let score : ℚ := overlap / (setCard expected : ℚ) - missing * (1/10) + extra * (1/20)
        if best.2 < score then (entry.2.spec_version, score) else best)
    ("unknown", 0)
  let confidence : ℚ := if !(best.1 == "unknown") then min (7/10 : ℚ) best.2 else 0
  (best.1, confidence)

/-- `MCPVersionDetector._map_protocol_to_spec`: direct table lookup with
confidence given by the detected fraction of expected features (boosted to at
least 0.9 when the fraction reaches 0.7), falling back to feature inference. -/
def map_protocol_to_spec (vmap : List (String × VersionEntry)) (pv : JValue)
    (features : List String) : String × ℚ :=
  match lookupEntry vmap pv with
  | some e =>
      let expected := e.features
      let matching : ℚ := interCard features expected
      let confidence : ℚ :=
        if expected.isEmpty then 0 else matching / (expected.length : ℚ)
      (e.spec_version,
       if (7/10 : ℚ) ≤ confidence then max confidence (9/10) else confidence)
  | none => infer_version_from_features vmap features

/-- `MCPVersionDetector._determine_detection_source`. -/
def determine_detection_source (pv : JValue) (capabilities : JValue) : String :=
  if !(isUnknownStr pv) then "protocol_version (" ++ pyStr pv ++ ")"
  else if pyTruthy capabilities then "capability_analysis"
  else "feature_inference"

/-- `MCPVersionDetector._assess_compatibility`. -/
def assess_compatibility (vmap : List (String × VersionEntry)) (pv : JValue)
    (features : List String) : String :=
  if isUnknownStr pv then "uncertain"
  else
    match lookupEntry vmap pv with
    | some e =>
        let missing := diffCard e.features features
        if missing == 0 then "fully_compatible"
        else if missing ≤ 1 then "mostly_compatible"
        else "partially_compatible"
    | none => "unknown_version"

/-- The `MCPVersionInfo` dataclass. -/
structure MCPVersionInfo where
  protocol_version : JValue
  specification_version : String
  detected_from : String
  compatibility_status : String
  supported_features : List String
  version_confidence : ℚ

/-- `MCPVersionDetector.detect_version` (with `_create_version_info` inlined):
extract the protocol version, detect features, then derive the specification
version, confidence, detection source and compatibility status. -/
def detect_version (vmap : List (String × VersionEntry)) (server_info : Dict)
    (server_capabilities : JValue) (available_methods : Option (List String)) :
    MCPVersionInfo :=
  let pv := (server_info.get? "protocol_version").getD (.str "unknown")
  let detected := detect_features server_capabilities available_methods
  let sc := map_protocol_to_spec vmap pv detected
  { protocol_version := pv
    specification_version := sc.1
    detected_from := determine_detection_source pv server_capabilities
    compatibility_status := assess_compatibility vmap pv detected
    supported_features := detected
    version_confidence := sc.2 }

/-! ### Transports (`transports/base.py`, `transports/stdio.py`, `transports/http.py`)

Wire I/O is modelled by oracles: the outcome of each write, and the raw data
the channel delivers, are parameters of the embedded functions. -/

/-- The text of the error raised for a JSON-RPC `error` object:
`MCP Error {code}: {message}` with defaults `unknown` / `Unknown error`. -/
def mcp_error_text (e : Dict) : String :=
  "MCP Error " ++ pyStr (e.getD "code" (.str "unknown")) ++ ": "
    ++ pyStr (e.getD "message" (.str "Unknown error"))

/-- The request message built by every `send_request`: fixed version tag,
method, an id (the caller-supplied one if truthy, else a fresh time-based
one), and the params when given. -/
def build_request (method : String) (params : Option Dict) (request_id : Option String)
    (now_ms : Nat) : Dict :=
  [("jsonrpc", .str "2.0"), ("method", .str method),
   ("id", .str (match request_id with
     | some rid => if rid == "" then create_request_id now_ms else rid
     | none => create_request_id now_ms))]
  ++ (match params with
     | some p => [("params", .obj p)]
     | none => [])

/-- The `error`-field check shared by every `send_request`: a response whose
`error` value is a dict raises (via `mk`) the code-and-message text; attribute
access on a non-dict `error` value raises `AttributeError`. Validation has
already ensured the response is a dict. -/
def response_error_check (mk : String → PyErr) (v : JValue) : Except PyErr JValue :=
  match v with
  | .obj response =>
      match Dict.get? response "error" with
      | some (.obj err) => .error (mk (mcp_error_text err))
      | some _ => .error (.attrError "error value has no attribute get")
      | none => .ok v
  | _ => .ok v

/-- `BaseTransport.send_request`: connection guard (a plain `RuntimeError`),
build and transmit the request, receive a response, and fail with a plain
`RuntimeError` when the response carries an `error` field. -/
def base_send_request (is_connected : Bool) (method : String) (params : Option Dict)
    (request_id : Option String) (now_ms : Nat)
    (send : Except PyErr Unit) (recv : Except PyErr Dict) : Except PyErr JValue :=
  if !is_connected then .error (.runtimeError "Transport not connected")
  else
    let _message := build_request method params request_id now_ms
    match send with
    | .error e => .error e
    | .ok () =>
        match recv with
        | .error e => .error e
        | .ok response => response_error_check .runtimeError (.obj response)

/-- `STDIOTransport.send_message`: guard, validate, serialize and write, any
failure wrapped in `ConnectionError`. -/
def stdio_send_message (channel_ok : Bool) (message : Dict)
    (write : Except PyErr Unit) : Except PyErr Unit :=
  if !channel_ok then .error (.connectionError "Transport not connected")
  else
    match validate_json_rpc_message message with
    | .error e => .error (.connectionError ("Failed to send STDIO message: " ++ e.text))
    | .ok () =>
        match write with
        | .error e => .error (.connectionError ("Failed to send STDIO message: " ++ e.text))
        | .ok () => .ok ()

/-- `STDIOTransport.receive_message`: pop the queued parsed line (`none`
models the timeout) and validate it. -/
def stdio_receive_message (connected : Bool) (queued : Option JValue) :
    Except PyErr JValue :=
  if !connected then .error (.connectionError "Transport not connected")
  else
    match queued with
    | none => .error (.timeoutError "No response received within timeout")
    | some v =>
        match validate_received v with
        | .error e => .error e
        | .ok () => .ok v

/-- `STDIOTransport.send_request`: guard, build, send, receive, then raise
`ProtocolError` when the response carries an `error` field. -/
def stdio_send_request (channel_ok : Bool) (method : String) (params : Option Dict)
    (request_id : Option String) (now_ms : Nat)
    (write : Except PyErr Unit) (queued : Option JValue) : Except PyErr JValue :=
  if !channel_ok then .error (.connectionError "Transport not connected")
  else
    let message := build_request method params request_id now_ms
    match stdio_send_message channel_ok message write with
    | .error e => .error e
    | .ok () =>
        match stdio_receive_message channel_ok queued with
        | .error e => .error e
        | .ok v => response_error_check .protocolError v

/-- The outcome of one HTTP POST round trip: a client error, a timeout, or a
status code with the raw body text and its JSON parse result (`parsed` stands
for `safe_json_loads text`). -/
inductive PostOutcome where
  | clientError (msg : String)
  | timedOut
  | ok (status : Nat) (text : String) (parsed : Except PyErr JValue)

/-- `HTTPTransport.send_request`: guard, build and validate the request, one
POST; non-success status and empty body are `ProtocolError`, a JSON-RPC
`error` object is a `ProtocolError` with its code and message. -/
def http_send_request (session_ok : Bool) (method : String) (params : Option Dict)
    (request_id : Option String) (now_ms : Nat) (post : PostOutcome) :
    Except PyErr JValue :=
  if !session_ok then .error (.connectionError "Transport not connected")
  else
    let message := build_request method params request_id now_ms
    match validate_json_rpc_message message with
    | .error e => .error e
    | .ok () =>
        match post with
        | .clientError m => .error (.connectionError ("HTTP request failed: " ++ m))
        | .timedOut => .error (.timeoutError "HTTP request timed out")
        | .ok status text parsed =>
            if 400 ≤ status then
              .error (.protocolError ("HTTP " ++ toString status ++ ": " ++ text))
            else if text == "" then
              .error (.protocolError "Empty response from server")
            else
              match parsed with
              | .error e => .error e
              | .ok v =>
                  match validate_received v with
                  | .error e => .error e
                  | .ok () => response_error_check .protocolError v

/-! ### Protocol client (`mcp_client.py`) -/

/-- The mutable state of an `MCPClient`. The capabilities and server info are
stored exactly as extracted (any JSON value Python would store). -/
structure ClientState where
  initialized : Bool
  server_capabilities : JValue
  server_info : JValue
  version_info : Option MCPVersionInfo

/-- The state set up by `MCPClient.__init__`. -/
def initial_client_state : ClientState :=
  { initialized := false, server_capabilities := .obj [], server_info := .obj [],
    version_info := none }

/-- A message put on the wire by the client. -/
inductive WireEvent where
  | request (method : String)
  | notification (method : String)

/-- The transport outcomes a client run consumes: the response to the
`initialize` request, the outcome of the `initialized` notification, and the
response to `tools/list`. -/
structure Oracle where
  initResult : Except PyErr Dict
  notifyResult : Except PyErr Unit
  toolsResult : Except PyErr Dict

/-- The declared client capability set. -/
def client_capabilities : Dict :=
  [("experimental", .obj []), ("sampling", .obj []),
   ("roots", .obj [("listChanged", .bool false)])]

/-- The `initialize` request params. -/
def init_params : Dict :=
  [("protocolVersion", .str "2024-11-05"),
   ("capabilities", .obj client_capabilities),
   ("clientInfo", .obj [("name", .str "mcpeek"), ("version", .str "1.0.0")])]

/-- `MCPClient.initialize_connection`: no-op returning the cached
capabilities when already initialized; otherwise the handshake. Every
failure inside the handshake is wrapped in `ConnectionError`; capabilities
and server info are stored before the steps that can still fail, and the
initialized flag is set last. Returns the call result, the new state, and
the wire messages emitted. -/
def initialize_connection (vmap : List (String × VersionEntry)) (st : ClientState)
    (tr : Oracle) : Except PyErr JValue × ClientState × List WireEvent :=
  if st.initialized then (.ok st.server_capabilities, st, [])
  else
    match tr.initResult with
    | .error e =>
        (.error (.connectionError ("MCP initialization failed: " ++ e.text)), st,
         [.request "initialize"])
    | .ok response =>
        match Dict.get? response "result" with
        | none =>
            (.error (.connectionError
                "MCP initialization failed: Initialize response missing result"), st,
             [.request "initialize"])
        | some (.obj result) =>
            let caps := Dict.getD result "capabilities" (.obj [])
            let sinfo := Dict.getD result "serverInfo" (.obj [])
            let st1 := { st with server_capabilities := caps, server_info := sinfo }
            match sinfo, caps with
            | .obj si, .obj _ =>
                let pv := Dict.getD result "protocolVersion" (.str "2024-11-05")
                let sifd : Dict :=
                  [("protocol_version", pv),
                   ("server_name", Dict.getD si "name" (.str "unknown")),
                   ("server_version", Dict.getD si "version" (.str "unknown"))]
                let vi := detect_version vmap sifd caps none
                let st2 := { st1 with version_info := some vi }
                match tr.notifyResult with
                | .error e =>
                    (.error (.connectionError ("MCP initialization failed: " ++ e.text)),
                     st2, [.request "initialize", .notification "notifications/initialized"])
                | .ok () =>
                    (.ok (.obj result), { st2 with initialized := true },
                     [.request "initialize", .notification "notifications/initialized"])
            | _, _ =>
                -- attribute access on a non-dict serverInfo / capabilities while
                -- logging raises, wrapped like every handshake failure
                (.error (.connectionError
                    "MCP initialization failed: attribute access on non-dict"), st1,
                 [.request "initialize"])
        | some _ =>
            -- `result.get` on a non-dict result raises before any state change
            (.error (.connectionError
                "MCP initialization failed: attribute access on non-dict"), st,
             [.request "initialize"])

/-- The body of `MCPClient.list_tools` after the implicit initialization: any
transport failure becomes `ProtocolError`; an empty or result-less or
non-dict-result response yields `[]`; otherwise the raw `tools` value. -/
def run_tools_list (st : ClientState) (toolsResult : Except PyErr Dict)
    (pending : List WireEvent) : Except PyErr JValue × ClientState × List WireEvent :=
  match toolsResult with
  | .error e =>
      (.error (.protocolError ("Failed to list tools: " ++ e.text)), st,
       pending ++ [.request "tools/list"])
  | .ok response =>
      if Dict.isEmpty response then (.ok (.arr []), st, pending ++ [.request "tools/list"])
      else
        match Dict.get? response "result" with
        | none => (.ok (.arr []), st, pending ++ [.request "tools/list"])
        | some (.obj result) =>
            (.ok (Dict.getD result "tools" (.arr [])), st, pending ++ [.request "tools/list"])
        | some _ => (.ok (.arr []), st, pending ++ [.request "tools/list"])

/-- `MCPClient.list_tools`: implicit `initialize_connection` when needed (its
failure propagates as `ConnectionError`), then the listing body. -/
def list_tools (vmap : List (String × VersionEntry)) (st : ClientState) (tr : Oracle) :
    Except PyErr JValue × ClientState × List WireEvent :=
  if st.initialized then run_tools_list st tr.toolsResult []
  else
    match initialize_connection vmap st tr with
    | (.error e, st1, ev) => (.error e, st1, ev)
    | (.ok _, st1, ev) => run_tools_list st1 tr.toolsResult ev

/-- `MCPClient.close`: best-effort goodbye notification when initialized and
connected (its failure is swallowed), then the transport close; only when the
transport close returns is the initialized flag reset — an exception there is
caught and logged with the state left as it was. -/
def close (st : ClientState) (transport_connected : Bool)
    (goodbye : Except PyErr Unit) (transport_close : Except PyErr Unit) :
    ClientState × List WireEvent :=
  let events := if st.initialized && transport_connected then
    [WireEvent.notification "goodbye"] else []
  -- the goodbye outcome never influences the rest of the call
  let _ := goodbye
  match transport_close with
  | .error _ => (st, events)
  | .ok () => ({ st with initialized := false }, events)

/-! ### Execution engine (`execution.py`) -/

/-- A Python value handed to `process_input_data`: `None`, a dict, a string,
an object carrying a `__dict__`, or any other (JSON-representable) value. -/
inductive PyInput where
  | none
  | dict (d : Dict)
  | str (s : String)
  | objWithDict (d : Dict)
  | prim (v : JValue)

/-- `ExecutionEngine.process_input_data`. `parse` stands for
`safe_json_loads` and `load_file` for `_load_from_file`; a `ValidationError`
from parsing falls back to the file loader. -/
def process_input_data (parse : String → Except PyErr PyInput)
    (load_file : String → Except PyErr PyInput) : PyInput → Except PyErr PyInput
  | .none => .ok (.dict [])
  | .dict d => .ok (.dict d)
  | .str s =>
      match parse s with
      | .ok v => .ok v
      | .error (.validationError _) => load_file s
      | .error e => .error e
  | .objWithDict d => .ok (.dict d)
  | .prim v => .ok (.dict [("value", v)])

/-! ### A heap model for the shallow `dict.copy()` of `server_capabilities`

Python dict values are references; `self._server_capabilities.copy()`
duplicates only the top-level table. The heap maps addresses to values whose
dict entries are addresses. -/

/-- A heap-allocated Python value: an immutable scalar or a mutable dict
whose entries point at other heap cells. -/
inductive PyVal where
  | prim (v : JValue)
  | dict (entries : List (String × Nat))

/-- The mutable store: newest binding of an address wins. -/
abbrev Heap := List (Nat × PyVal)

/-- Read a heap cell. -/
def Heap.lookup (h : Heap) (a : Nat) : Option PyVal :=
  (h.find? (fun p => p.1 == a)).map Prod.snd

/-- Write a heap cell (newest binding shadows older ones). -/
def Heap.update (h : Heap) (a : Nat) (v : PyVal) : Heap :=
  (a, v) :: h

/-- The JSON value a heap cell denotes, resolving references up to `fuel`
indirections. -/
def denote (h : Heap) : Nat → Nat → JValue
  | 0, _ => .null
  | fuel + 1, a =>
      match h.lookup a with
      | some (.prim v) => v
      | some (.dict es) => .obj (es.map (fun kv => (kv.1, denote h fuel kv.2)))
      | none => .null

/-- Whether address `b` is reachable from address `a` in at most `fuel`
steps (an address reaches itself). -/
def reaches (h : Heap) : Nat → Nat → Nat → Bool
  | 0, _, _ => false
  | fuel + 1, a, b =>
      (a == b) ||
      match h.lookup a with
      | some (.dict es) => es.any (fun kv => reaches h fuel kv.2 b)
      | _ => false

/-- The `server_capabilities` property: `self._server_capabilities.copy()` —
a new top-level dict at address `dst` sharing every entry reference with the
source dict. -/
def dict_copy (h : Heap) (src : Nat) (dst : Nat) : Heap :=
  match h.lookup src with
  | some (.dict es) => h.update dst (.dict es)
  | _ => h

/-! ## Theorems -/

/-- A key with no binding has no lookup result. -/
theorem get?_eq_none_of_not_hasKey (d : Dict) (k : String)
    (h : Dict.hasKey d k = false) : Dict.get? d k = none := by
  simp only [Dict.hasKey, List.any_eq_false] at h
  simp only [Dict.get?, Option.map_eq_none', List.find?_eq_none]
  exact h

/-- C1 (counterexample): a response carrying both `result` and `error` — which
the claim says validation must reject — is accepted by
`validate_json_rpc_message`. -/
theorem validate_accepts_result_and_error :
    Dict.hasKey [("jsonrpc", .str "2.0"), ("id", .str "1"), ("result", .null),
      ("error", .obj [("code", .num 1), ("message", .str "boom")])] "result" = true ∧
    Dict.hasKey [("jsonrpc", .str "2.0"), ("id", .str "1"), ("result", .null),
      ("error", .obj [("code", .num 1), ("message", .str "boom")])] "error" = true ∧
    validate_json_rpc_message [("jsonrpc", .str "2.0"), ("id", .str "1"), ("result", .null),
      ("error", .obj [("code", .num 1), ("message", .str "boom")])] = .ok () :=
  ⟨rfl, rfl, rfl⟩

/-- C1 (amended): `validate_json_rpc_message` accepts exactly the messages
with the version tag `"2.0"` that either carry a `method` (request or
notification, id optional) or carry an `id` together with at least one of
`result` / `error`; it does not reject a response carrying both `result` and
`error`. -/
theorem validate_ok_characterization (message : Dict) :
    validate_json_rpc_message message = .ok () ↔
      (isVersionTag (Dict.get? message "jsonrpc") = true ∧
       (Dict.hasKey message "method" = true ∨
        ((Dict.hasKey message "result" = true ∨ Dict.hasKey message "error" = true) ∧
         Dict.hasKey message "id" = true))) := by
  unfold validate_json_rpc_message
  rcases hj : Dict.hasKey message "jsonrpc" with _ | _
  · rw [get?_eq_none_of_not_hasKey message "jsonrpc" hj]
    simp [isVersionTag]
  · rcases hv : isVersionTag (Dict.get? message "jsonrpc") with _ | _
    · simp [hv]
    · rcases hm : Dict.hasKey message "method" with _ | _
      · rcases hr : Dict.hasKey message "result" with _ | _ <;>
          rcases he : Dict.hasKey message "error" with _ | _ <;>
            rcases hi : Dict.hasKey message "id" with _ | _ <;>
              simp [hv, hm, hr, he, hi]
      · simp [hv, hm]

/-- C7 (counterexample): a client in the Initialized state whose transport
`close()` raises keeps `is_initialized = true` after `MCPClient.close()`
returns, although the claim says it must be false. -/
theorem close_counterexample :
    ((close ⟨true, .obj [], .obj [], none⟩ true (.ok ())
        (.error (.connectionError "close failed"))).1).initialized = true :=
  rfl

/-- C7 (amended): after `MCPClient.close()` the initialized flag is false
whenever the transport `close()` returns normally — in particular a failing
goodbye notification is tolerated — but when the transport `close()` raises,
the caught exception leaves the whole state (the flag included) unchanged. -/
theorem close_resets_initialized_amended (st : ClientState) (tc : Bool)
    (goodbye : Except PyErr Unit) :
    ((close st tc goodbye (.ok ())).1).initialized = false ∧
    ∀ e, (close st tc goodbye (.error e)).1 = st := by
  constructor
  · rfl
  · intro e; rfl

/-- C8 (counterexample): `process_input_data` maps the non-mapping,
non-string input `None` to the empty mapping, not to `{"value": None}` as the
claim states. -/
theorem process_input_data_counterexample :
    process_input_data (fun _ => .error (.validationError "invalid"))
        (fun _ => .error (.validationError "invalid")) .none = .ok (.dict []) ∧
    (PyInput.dict []) ≠ (PyInput.dict [("value", .null)]) :=
  ⟨rfl, by simp⟩

/-- C8 (amended): `process_input_data` returns a mapping unchanged; among the
non-mapping, non-string inputs, `None` yields the empty mapping, a value with
a `__dict__` attribute yields that `__dict__`, and only the remaining values
are wrapped as `{"value": input}`. -/
theorem process_input_data_amended (parse : String → Except PyErr PyInput)
    (load_file : String → Except PyErr PyInput) :
    (∀ d, process_input_data parse load_file (.dict d) = .ok (.dict d)) ∧
    process_input_data parse load_file .none = .ok (.dict []) ∧
    (∀ d, process_input_data parse load_file (.objWithDict d) = .ok (.dict d)) ∧
    (∀ v, process_input_data parse load_file (.prim v) = .ok (.dict [("value", v)])) :=
  ⟨fun _ => rfl, rfl, fun _ => rfl, fun _ => rfl⟩

/-- With no `available_methods` list, every feature pattern that names
required methods fails its method check, so only the three
capability-only patterns (and the unconditional `json_rpc_2.0`) can be
detected. -/
theorem detect_features_no_methods (caps : JValue) :
    detect_features caps none =
      (if check_capabilities caps ["sampling"] then ["sampling_support"] else []) ++
      (if check_capabilities caps ["experimental"] then ["experimental_features"] else []) ++
      (if check_capabilities caps ["roots", "roots.listChanged"] then ["roots_support"] else []) ++
      ["json_rpc_2.0"] := by
  rcases h5 : check_capabilities caps ["sampling"] with _ | _ <;>
    rcases h6 : check_capabilities caps ["experimental"] with _ | _ <;>
      rcases h7 : check_capabilities caps ["roots", "roots.listChanged"] with _ | _ <;>
        simp [detect_features, FEATURE_PATTERNS, List.foldl, h5, h6, h7]

/-- The first entry of the default version table. -/
theorem lookup_2024_11_05 :
    lookupEntry DEFAULT_VERSION_MAP (.str "2024-11-05")
      = some { spec_version := "1.0.0",
               features := ["basic_tools", "basic_resources", "basic_prompts",
                 "json_rpc_2.0", "capability_negotiation", "initialization_handshake"] } :=
  rfl

/-- C2 (counterexample): the exact input of the claim — protocol version
`2024-11-05` and capabilities with `tools`, `resources` and `prompts` keys —
classifies as `partially_compatible`, not `fully_compatible` with confidence
at least 0.9. -/
theorem detect_version_full_caps_counterexample :
    (detect_version DEFAULT_VERSION_MAP [("protocol_version", .str "2024-11-05")]
      (.obj [("tools", .obj []), ("resources", .obj []), ("prompts", .obj [])])
      none).compatibility_status = "partially_compatible" ∧
    ¬((detect_version DEFAULT_VERSION_MAP [("protocol_version", .str "2024-11-05")]
        (.obj [("tools", .obj []), ("resources", .obj []), ("prompts", .obj [])])
        none).compatibility_status = "fully_compatible" ∧
      (9/10 : ℚ) ≤ (detect_version DEFAULT_VERSION_MAP
        [("protocol_version", .str "2024-11-05")]
        (.obj [("tools", .obj []), ("resources", .obj []), ("prompts", .obj [])])
        none).version_confidence) :=
  ⟨by decide, fun h => absurd h.1 (by decide)⟩

/-- C2 (amended): with no `available_methods` list, the basic tool, resource
and prompt features are never detected (their method requirements cannot be
met), so protocol version `2024-11-05` with capabilities containing `tools`,
`resources` and `prompts` keys classifies as `partially_compatible` with
confidence exactly 1/6. -/
theorem detect_version_full_caps_amended (si caps : Dict)
    (hsi : Dict.get? si "protocol_version" = some (.str "2024-11-05"))
    (_ht : Dict.hasKey caps "tools" = true)
    (_hr : Dict.hasKey caps "resources" = true)
    (_hp : Dict.hasKey caps "prompts" = true) :
    (detect_version DEFAULT_VERSION_MAP si (.obj caps) none).compatibility_status
      = "partially_compatible" ∧
    (detect_version DEFAULT_VERSION_MAP si (.obj caps) none).version_confidence
      = 1/6 := by
  have hpv : (Dict.get? si "protocol_version").getD (.str "unknown")
      = .str "2024-11-05" := by rw [hsi]; rfl
  constructor
  · show assess_compatibility DEFAULT_VERSION_MAP
        ((Dict.get? si "protocol_version").getD (.str "unknown"))
        (detect_features (.obj caps) none) = _
    rw [hpv, detect_features_no_methods]
    split_ifs <;> decide
  · show (map_protocol_to_spec DEFAULT_VERSION_MAP
        ((Dict.get? si "protocol_version").getD (.str "unknown"))
        (detect_features (.obj caps) none)).2 = _
    rw [hpv]
    have h1 : interCard (detect_features (.obj caps) none)
        ["basic_tools", "basic_resources", "basic_prompts", "json_rpc_2.0",
         "capability_negotiation", "initialization_handshake"] = 1 := by
      rw [detect_features_no_methods]; split_ifs <;> decide
    simp only [map_protocol_to_spec, lookup_2024_11_05, h1]
    norm_num

/-- C2 (witness): the amended classification at the concrete input of the
claim. -/
theorem detect_version_full_caps_amended_witness :
    (detect_version DEFAULT_VERSION_MAP [("protocol_version", .str "2024-11-05")]
      (.obj [("tools", .obj []), ("resources", .obj []), ("prompts", .obj [])])
      none).compatibility_status = "partially_compatible" ∧
    (detect_version DEFAULT_VERSION_MAP [("protocol_version", .str "2024-11-05")]
      (.obj [("tools", .obj []), ("resources", .obj []), ("prompts", .obj [])])
      none).version_confidence = 1/6 :=
  detect_version_full_caps_amended [("protocol_version", .str "2024-11-05")]
    [("tools", .obj []), ("resources", .obj []), ("prompts", .obj [])]
    rfl rfl rfl rfl

/-- Feature inference from the bare `json_rpc_2.0` feature over the default
table: the best score is reached at the `2024-06-25` entry, 1/2 − 1/10 = 2/5,
below the 0.7 cap. -/
theorem infer_json_rpc_only :
    infer_version_from_features DEFAULT_VERSION_MAP ["json_rpc_2.0"]
      = ("0.8.0", 2/5) := by
  simp only [infer_version_from_features, DEFAULT_VERSION_MAP, List.foldl]
  have c11 : interCard ["basic_tools", "basic_resources", "basic_prompts",
      "json_rpc_2.0", "capability_negotiation", "initialization_handshake"]
      ["json_rpc_2.0"] = 1 := by decide
  have c12 : diffCard ["basic_tools", "basic_resources", "basic_prompts",
      "json_rpc_2.0", "capability_negotiation", "initialization_handshake"]
      ["json_rpc_2.0"] = 5 := by decide
  have c13 : diffCard ["json_rpc_2.0"]
      ["basic_tools", "basic_resources", "basic_prompts",
       "json_rpc_2.0", "capability_negotiation", "initialization_handshake"] = 0 := by decide
  have c14 : setCard ["basic_tools", "basic_resources", "basic_prompts",
      "json_rpc_2.0", "capability_negotiation", "initialization_handshake"] = 6 := by decide
  have c21 : interCard ["basic_tools", "basic_resources", "json_rpc_2.0"]
      ["json_rpc_2.0"] = 1 := by decide
  have c22 : diffCard ["basic_tools", "basic_resources", "json_rpc_2.0"]
      ["json_rpc_2.0"] = 2 := by decide
  have c23 : diffCard ["json_rpc_2.0"]
      ["basic_tools", "basic_resources", "json_rpc_2.0"] = 0 := by decide
  have c24 : setCard ["basic_tools", "basic_resources", "json_rpc_2.0"] = 3 := by decide
  have c31 : interCard ["basic_tools", "json_rpc_2.0"] ["json_rpc_2.0"] = 1 := by decide
  have c32 : diffCard ["basic_tools", "json_rpc_2.0"] ["json_rpc_2.0"] = 1 := by decide
  have c33 : diffCard ["json_rpc_2.0"] ["basic_tools", "json_rpc_2.0"] = 0 := by decide
  have c34 : setCard ["basic_tools", "json_rpc_2.0"] = 2 := by decide
  simp only [c11, c12, c13, c14, c21, c22, c23, c24, c31, c32, c33, c34]
  norm_num
  decide

/-- C3 (counterexample): an unrecognized protocol version (`banana`) with
empty capabilities classifies as `unknown_version` (not `uncertain`),
refuting the claimed classification. -/
theorem detect_version_unknown_counterexample :
    (detect_version DEFAULT_VERSION_MAP [("protocol_version", .str "banana")]
      (.obj []) none).compatibility_status = "unknown_version" ∧
    ¬((detect_version DEFAULT_VERSION_MAP [("protocol_version", .str "banana")]
        (.obj []) none).compatibility_status = "uncertain" ∧
      (detect_version DEFAULT_VERSION_MAP [("protocol_version", .str "banana")]
        (.obj []) none).version_confidence = 0) :=
  ⟨by decide, fun h => absurd h.1 (by decide)⟩

/-- C3 (amended): a protocol version string outside the default table with
empty capabilities yields confidence 2/5 (feature inference from the
always-detected `json_rpc_2.0`, capped below 0.7), and classifies as
`uncertain` only when the version string is literally `unknown`, otherwise as
`unknown_version`. -/
theorem detect_version_unrecognized_amended (si : Dict) (s : String)
    (hsi : Dict.get? si "protocol_version" = some (.str s))
    (hs : s ∉ ["2024-11-05", "2024-10-07", "2024-06-25"]) :
    (detect_version DEFAULT_VERSION_MAP si (.obj []) none).version_confidence = 2/5 ∧
    (detect_version DEFAULT_VERSION_MAP si (.obj []) none).compatibility_status
      = (if s = "unknown" then "uncertain" else "unknown_version") := by
  simp only [List.mem_cons, List.not_mem_nil, or_false, not_or] at hs
  obtain ⟨hs1, hs2, hs3⟩ := hs
  have hpv : (Dict.get? si "protocol_version").getD (.str "unknown") = .str s := by
    rw [hsi]; rfl
  have e1 : ("2024-11-05" == s) = false := beq_eq_false_iff_ne.mpr (Ne.symm hs1)
  have e2 : ("2024-10-07" == s) = false := beq_eq_false_iff_ne.mpr (Ne.symm hs2)
  have e3 : ("2024-06-25" == s) = false := beq_eq_false_iff_ne.mpr (Ne.symm hs3)
  have hlook : lookupEntry DEFAULT_VERSION_MAP (.str s) = none := by
    simp [lookupEntry, DEFAULT_VERSION_MAP, List.find?, e1, e2, e3]
  have hf : detect_features (.obj []) none = ["json_rpc_2.0"] := by decide
  constructor
  · show (map_protocol_to_spec DEFAULT_VERSION_MAP
        ((Dict.get? si "protocol_version").getD (.str "unknown"))
        (detect_features (.obj []) none)).2 = _
    rw [hpv, hf]
    simp only [map_protocol_to_spec, hlook, infer_json_rpc_only]
  · show assess_compatibility DEFAULT_VERSION_MAP
        ((Dict.get? si "protocol_version").getD (.str "unknown"))
        (detect_features (.obj []) none) = _
    rw [hpv, hf]
    by_cases hu : s = "unknown"
    · subst hu; simp [assess_compatibility, isUnknownStr]
    · simp [assess_compatibility, isUnknownStr, hu, hlook]

/-- C3 (witness): the amended classification at the concrete unrecognized
version string `banana`. -/
theorem detect_version_unrecognized_amended_witness :
    (detect_version DEFAULT_VERSION_MAP [("protocol_version", .str "banana")]
      (.obj []) none).version_confidence = 2/5 ∧
    (detect_version DEFAULT_VERSION_MAP [("protocol_version", .str "banana")]
      (.obj []) none).compatibility_status
      = (if "banana" = "unknown" then "uncertain" else "unknown_version") :=
  detect_version_unrecognized_amended [("protocol_version", .str "banana")] "banana"
    rfl (by decide)

/-- C4: on an initialized client, any exception from the transport during
`tools/list` is re-raised as `ProtocolError`, and a well-formed response
whose `result` mapping lacks a `tools` key yields the empty list without
raising. -/
theorem list_tools_error_and_empty (vmap : List (String × VersionEntry))
    (st : ClientState) (tr : Oracle) (h : st.initialized = true) :
    (∀ e, tr.toolsResult = .error e →
      (list_tools vmap st tr).1
        = .error (.protocolError ("Failed to list tools: " ++ e.text))) ∧
    (∀ rid, tr.toolsResult
        = .ok [("jsonrpc", .str "2.0"), ("id", .str rid), ("result", .obj [])] →
      (list_tools vmap st tr).1 = .ok (.arr [])) := by
  constructor
  · intro e he
    simp [list_tools, h, run_tools_list, he]
  · intro rid hr
    simp [list_tools, h, run_tools_list, hr, Dict.isEmpty, Dict.get?, Dict.getD,
      List.find?]

/-- C4 (witness): the two behaviors at concrete transports. -/
theorem list_tools_error_and_empty_witness :
    (list_tools DEFAULT_VERSION_MAP
        ⟨true, .obj [], .obj [], none⟩
        ⟨.ok [], .ok (), .error (.connectionError "boom")⟩).1
      = .error (.protocolError "Failed to list tools: boom") ∧
    (list_tools DEFAULT_VERSION_MAP
        ⟨true, .obj [], .obj [], none⟩
        ⟨.ok [], .ok (), .ok [("jsonrpc", .str "2.0"), ("id", .str "r1"),
          ("result", .obj [])]⟩).1
      = .ok (.arr []) :=
  ⟨(list_tools_error_and_empty DEFAULT_VERSION_MAP ⟨true, .obj [], .obj [], none⟩
      ⟨.ok [], .ok (), .error (.connectionError "boom")⟩ rfl).1
      (.connectionError "boom") rfl,
   (list_tools_error_and_empty DEFAULT_VERSION_MAP ⟨true, .obj [], .obj [], none⟩
      ⟨.ok [], .ok (), .ok [("jsonrpc", .str "2.0"), ("id", .str "r1"),
        ("result", .obj [])]⟩ rfl).2 "r1" rfl⟩

/-- Every request message built by `send_request` passes validation: it
carries the `2.0` tag and a method. -/
theorem validate_build_request (method : String) (params : Option Dict)
    (request_id : Option String) (now_ms : Nat) :
    validate_json_rpc_message (build_request method params request_id now_ms)
      = .ok () := by
  cases params <;>
    simp [build_request, validate_json_rpc_message, Dict.hasKey, Dict.get?,
      isVersionTag, List.find?]

/-- C6 (counterexample): in the shared base contract
(`BaseTransport.send_request`), a response carrying an `error` field raises a
plain `RuntimeError` — with the code-and-message text — not a
`ProtocolError` as the claim states. -/
theorem send_request_error_counterexample :
    base_send_request true "tools/call" none none 1000 (.ok ())
        (.ok [("jsonrpc", .str "2.0"), ("id", .str "1"),
          ("error", .obj [("code", .num (-32600)), ("message", .str "bad")])])
      = .error (.runtimeError "MCP Error -32600: bad") ∧
    (PyErr.runtimeError "MCP Error -32600: bad").isProtocolError = false :=
  ⟨rfl, rfl⟩

/-- C6 (amended): when the validated response obtained for a request carries
an `error` object, the two concrete transports raise `ProtocolError` with its
code and message, while the shared base implementation raises a plain
`RuntimeError` carrying the same text. -/
theorem send_request_error_field_amended (method : String) (params : Option Dict)
    (request_id : Option String) (now_ms : Nat) (text : String)
    (response err : Dict)
    (hv : validate_json_rpc_message response = .ok ())
    (he : Dict.get? response "error" = some (.obj err))
    (htext : (text == "") = false) :
    stdio_send_request true method params request_id now_ms (.ok ())
        (some (.obj response)) = .error (.protocolError (mcp_error_text err)) ∧
    http_send_request true method params request_id now_ms
        (.ok 200 text (.ok (.obj response)))
      = .error (.protocolError (mcp_error_text err)) ∧
    base_send_request true method params request_id now_ms (.ok ()) (.ok response)
      = .error (.runtimeError (mcp_error_text err)) := by
  refine ⟨?_, ?_, ?_⟩
  · simp [stdio_send_request, stdio_send_message, validate_build_request,
      stdio_receive_message, validate_received, hv, response_error_check, he]
  · simp [http_send_request, validate_build_request, htext,
      validate_received, hv, response_error_check, he]
  · simp [base_send_request, response_error_check, he]

/-- C6 (witness): the three transports at a concrete error response. -/
theorem send_request_error_field_witness :
    stdio_send_request true "ping" none none 7 (.ok ())
        (some (.obj [("jsonrpc", .str "2.0"), ("id", .str "1"),
          ("error", .obj [("code", .num 5), ("message", .str "nope")])]))
      = .error (.protocolError "MCP Error 5: nope") ∧
    http_send_request true "ping" none none 7
        (.ok 200 "x" (.ok (.obj [("jsonrpc", .str "2.0"), ("id", .str "1"),
          ("error", .obj [("code", .num 5), ("message", .str "nope")])])))
      = .error (.protocolError "MCP Error 5: nope") ∧
    base_send_request true "ping" none none 7 (.ok ())
        (.ok [("jsonrpc", .str "2.0"), ("id", .str "1"),
          ("error", .obj [("code", .num 5), ("message", .str "nope")])])
      = .error (.runtimeError "MCP Error 5: nope") :=
  send_request_error_field_amended "ping" none none 7 "x"
    [("jsonrpc", .str "2.0"), ("id", .str "1"),
     ("error", .obj [("code", .num 5), ("message", .str "nope")])]
    [("code", .num 5), ("message", .str "nope")] rfl rfl rfl

/-- C5: once `initialize_connection` has succeeded from an uninitialized
state, a second call — against any transport whatsoever — returns the cached
server-capabilities value with no wire traffic and no state change, and that
cached value is exactly the `capabilities` entry captured from the first
handshake result. -/
theorem initialize_connection_idempotent (vmap : List (String × VersionEntry))
    (st : ClientState) (tr tr2 : Oracle) (v : JValue)
    (hst : st.initialized = false)
    (h : (initialize_connection vmap st tr).1 = .ok v) :
    (initialize_connection vmap ((initialize_connection vmap st tr).2.1) tr2
      = (.ok ((initialize_connection vmap st tr).2.1).server_capabilities,
         (initialize_connection vmap st tr).2.1, [])) ∧
    (∀ result, v = .obj result →
      ((initialize_connection vmap st tr).2.1).server_capabilities
        = Dict.getD result "capabilities" (.obj [])) := by
  rcases htr : tr.initResult with e | response
  · simp [initialize_connection, hst, htr] at h
  · rcases hres : Dict.get? response "result" with _ | val
    · simp [initialize_connection, hst, htr, hres] at h
    · cases val with
      | null => simp [initialize_connection, hst, htr, hres] at h
      | bool b => simp [initialize_connection, hst, htr, hres] at h
      | num n => simp [initialize_connection, hst, htr, hres] at h
      | str s => simp [initialize_connection, hst, htr, hres] at h
      | arr xs => simp [initialize_connection, hst, htr, hres] at h
      | obj result =>
        rcases hsinfo : Dict.getD result "serverInfo" (.obj []) with _ | b | n | s | xs | si <;>
          rcases hcaps : Dict.getD result "capabilities" (.obj []) with _ | b2 | n2 | s2 | xs2 | c <;>
            try simp only [initialize_connection, hst, htr, hres, hsinfo, hcaps,
              Bool.false_eq_true, if_false, reduceCtorEq] at h
        rcases hn : tr.notifyResult with e | u
        · simp [initialize_connection, hst, htr, hres, hsinfo, hcaps, hn] at h
        · have hsteq : (initialize_connection vmap st tr).2.1
              = ⟨true, .obj c, .obj si,
                 some (detect_version vmap
                   [("protocol_version", Dict.getD result "protocolVersion" (.str "2024-11-05")),
                    ("server_name", Dict.getD si "name" (.str "unknown")),
                    ("server_version", Dict.getD si "version" (.str "unknown"))]
                   (.obj c) none)⟩ := by
            simp [initialize_connection, hst, htr, hres, hsinfo, hcaps, hn]
          have hveq : v = .obj result := by
            simp [initialize_connection, hst, htr, hres, hsinfo, hcaps, hn] at h
            exact h.symm
          constructor
          · rw [hsteq]
            simp [initialize_connection]
          · intro result' hv
            have : result = result' := by
              rw [hveq] at hv
              exact JValue.obj.inj hv
            rw [hsteq, ← this, hcaps]

/-- C5 (witness): a concrete successful handshake followed by a second call
against a transport that would fail every request. -/
theorem initialize_connection_idempotent_witness :
    (initialize_connection DEFAULT_VERSION_MAP
        ((initialize_connection DEFAULT_VERSION_MAP initial_client_state
          ⟨.ok [("jsonrpc", .str "2.0"), ("id", .str "1"),
            ("result", .obj [("capabilities", .obj [("tools", .obj [])]),
              ("serverInfo", .obj [("name", .str "srv")])])], .ok (), .ok []⟩).2.1)
        ⟨.error (.connectionError "down"), .error (.connectionError "down"),
          .error (.connectionError "down")⟩
      = (.ok ((initialize_connection DEFAULT_VERSION_MAP initial_client_state
          ⟨.ok [("jsonrpc", .str "2.0"), ("id", .str "1"),
            ("result", .obj [("capabilities", .obj [("tools", .obj [])]),
              ("serverInfo", .obj [("name", .str "srv")])])], .ok (), .ok []⟩).2.1).server_capabilities,
         (initialize_connection DEFAULT_VERSION_MAP initial_client_state
          ⟨.ok [("jsonrpc", .str "2.0"), ("id", .str "1"),
            ("result", .obj [("capabilities", .obj [("tools", .obj [])]),
              ("serverInfo", .obj [("name", .str "srv")])])], .ok (), .ok []⟩).2.1, [])) ∧
    ((initialize_connection DEFAULT_VERSION_MAP initial_client_state
        ⟨.ok [("jsonrpc", .str "2.0"), ("id", .str "1"),
          ("result", .obj [("capabilities", .obj [("tools", .obj [])]),
            ("serverInfo", .obj [("name", .str "srv")])])], .ok (), .ok []⟩).2.1).server_capabilities
      = .obj [("tools", .obj [])] :=
  ⟨(initialize_connection_idempotent DEFAULT_VERSION_MAP initial_client_state
      ⟨.ok [("jsonrpc", .str "2.0"), ("id", .str "1"),
        ("result", .obj [("capabilities", .obj [("tools", .obj [])]),
          ("serverInfo", .obj [("name", .str "srv")])])], .ok (), .ok []⟩
      ⟨.error (.connectionError "down"), .error (.connectionError "down"),
        .error (.connectionError "down")⟩
      (.obj [("capabilities", .obj [("tools", .obj [])]),
        ("serverInfo", .obj [("name", .str "srv")])]) rfl rfl).1,
   (initialize_connection_idempotent DEFAULT_VERSION_MAP initial_client_state
      ⟨.ok [("jsonrpc", .str "2.0"), ("id", .str "1"),
        ("result", .obj [("capabilities", .obj [("tools", .obj [])]),
          ("serverInfo", .obj [("name", .str "srv")])])], .ok (), .ok []⟩
      ⟨.error (.connectionError "down"), .error (.connectionError "down"),
        .error (.connectionError "down")⟩
      (.obj [("capabilities", .obj [("tools", .obj [])]),
        ("serverInfo", .obj [("name", .str "srv")])]) rfl rfl).2
     [("capabilities", .obj [("tools", .obj [])]),
      ("serverInfo", .obj [("name", .str "srv")])] rfl⟩

/-- Updating an address other than the one read leaves the read unchanged. -/
theorem lookup_update_ne (h : Heap) (a b : Nat) (v : PyVal) (hab : a ≠ b) :
    (h.update b v).lookup a = h.lookup a := by
  have hba : (b == a) = false := beq_eq_false_iff_ne.mpr (Ne.symm hab)
  simp [Heap.update, Heap.lookup, List.find?, hba]

/-- Unreachability of an address survives writing to it. -/
theorem reaches_update_of_not (h : Heap) (b : Nat) (v : PyVal) :
    ∀ (f a : Nat), reaches h f a b = false → reaches (h.update b v) f a b = false := by
  intro f
  induction f with
  | zero => intro a _; rfl
  | succ f ih =>
    intro a hr
    simp only [reaches, Bool.or_eq_false_iff] at hr ⊢
    obtain ⟨hab, hrest⟩ := hr
    have hab' : a ≠ b := by simpa using hab
    refine ⟨hab, ?_⟩
    rw [lookup_update_ne h a b v hab']
    rcases hl : h.lookup a with _ | val
    · simp
    · cases val with
      | prim w => simp
      | dict es =>
        simp only [hl, List.any_eq_false, Bool.not_eq_true] at hrest ⊢
        intro kv hkv
        exact ih kv.2 (hrest kv hkv)

/-- Writing to an address unreachable from `a` does not change what `a`
denotes. -/
theorem denote_update_of_not_reaches (h : Heap) (b : Nat) (v : PyVal) :
    ∀ (f a : Nat), reaches h f a b = false → denote (h.update b v) f a = denote h f a := by
  intro f
  induction f with
  | zero => intro a _; rfl
  | succ f ih =>
    intro a hr
    simp only [reaches, Bool.or_eq_false_iff] at hr
    obtain ⟨hab, hrest⟩ := hr
    have hab' : a ≠ b := by simpa using hab
    simp only [denote]
    rw [lookup_update_ne h a b v hab']
    rcases hl : h.lookup a with _ | val
    · rfl
    · cases val with
      | prim w => rfl
      | dict es =>
        simp only [hl, List.any_eq_false, Bool.not_eq_true] at hrest
        simp only [hl]
        have hmap : es.map (fun kv => (kv.1, denote (h.update b v) f kv.2))
            = es.map (fun kv => (kv.1, denote h f kv.2)) := by
          apply List.map_congr_left
          intro kv hkv
          rw [ih kv.2 (hrest kv hkv)]
        rw [hmap]

/-- C9 (counterexample): the returned capabilities mapping is a shallow copy;
mutating a nested capability descriptor through the copy (adding an entry to
the dict the `tools` key shares with the client) changes what the client's
stored capabilities denote. -/
theorem server_capabilities_counterexample :
    denote (Heap.update
        (dict_copy [(0, .dict [("tools", 1)]), (1, .dict [("listChanged", 2)]),
          (2, .prim (.bool false))] 0 3)
        1 (.dict [("listChanged", 2), ("evil", 2)])) 4 0
      = .obj [("tools", .obj [("listChanged", .bool false), ("evil", .bool false)])] ∧
    denote (dict_copy [(0, .dict [("tools", 1)]), (1, .dict [("listChanged", 2)]),
        (2, .prim (.bool false))] 0 3) 4 0
      = .obj [("tools", .obj [("listChanged", .bool false)])] ∧
    JValue.obj [("tools", .obj [("listChanged", .bool false), ("evil", .bool false)])]
      ≠ .obj [("tools", .obj [("listChanged", .bool false)])] :=
  ⟨rfl, rfl, by simp⟩

/-- C9 (amended): mutations of the returned copy itself — overwriting its
top-level table with anything — leave the client's stored capabilities
unchanged, because the copy lives at a fresh address unreachable from the
stored dict; only nested descriptors (shared by reference) are mutable
through the copy. -/
theorem server_capabilities_shallow_copy_frame (h : Heap) (capsAddr dst f : Nat)
    (es : List (String × Nat)) (hsrc : h.lookup capsAddr = some (.dict es))
    (hfresh : reaches h f capsAddr dst = false) (v : PyVal) :
    denote ((dict_copy h capsAddr dst).update dst v) f capsAddr
      = denote h f capsAddr := by
  have h1 : dict_copy h capsAddr dst = h.update dst (.dict es) := by
    simp [dict_copy, hsrc]
  rw [h1]
  have h2 : reaches (h.update dst (.dict es)) f capsAddr dst = false :=
    reaches_update_of_not h dst (.dict es) f capsAddr hfresh
  rw [denote_update_of_not_reaches (h.update dst (.dict es)) dst v f capsAddr h2,
      denote_update_of_not_reaches h dst (.dict es) f capsAddr hfresh]

/-- C9 (witness): the frame theorem at the concrete three-cell heap. -/
theorem server_capabilities_shallow_copy_frame_witness :
    denote ((dict_copy [(0, .dict [("tools", 1)]), (1, .dict [("listChanged", 2)]),
        (2, .prim (.bool false))] 0 3).update 3 (.dict [])) 4 0
      = denote [(0, .dict [("tools", 1)]), (1, .dict [("listChanged", 2)]),
        (2, .prim (.bool false))] 4 0 :=
  server_capabilities_shallow_copy_frame
    [(0, .dict [("tools", 1)]), (1, .dict [("listChanged", 2)]),
      (2, .prim (.bool false))] 0 3 4 [("tools", 1)] rfl rfl (.dict [])

/-- C10 (code evaluated at the failing input): two different requests built
in the same clock millisecond — here `tools/list` and `resources/list` at
reading 1700000000000 — receive the same request id, contradicting the
documented uniqueness of `create_request_id`. -/
theorem create_request_id_collision :
    Dict.get? (build_request "tools/list" none none 1700000000000) "id"
      = Dict.get? (build_request "resources/list" none none 1700000000000) "id" ∧
    Dict.get? (build_request "tools/list" none none 1700000000000) "id"
      = some (.str "mcpeek-1700000000000") :=
  ⟨rfl, rfl⟩

end MCPeek
